import Mathlib

/-
Shallow embedding of the pipeline-execution and project-state subsystem of
the contentengine repository:

  * src/backend/models/project.py        (ContentProject)
  * src/backend/core/project_manager.py  (ProjectManager)
  * src/backend/core/pipeline_executor.py (PipelineExecutor)
  * src/backend/core/script_executor.py  (ScriptExecutor)
  * src/backend/utils/progress_tracker.py (ProgressTracker)

Modelling conventions:
  * Python dicts that are used as ordered string-keyed maps are embedded as
    association lists `List (String × α)`; `alistGet` is `dict.get`,
    `alistUpsert` is `dict[k] = v` (replace the existing binding in place,
    or append a new one), matching insertion-ordered Python dicts.
  * Timestamps (`datetime.now().isoformat()`) are embedded as `Nat` values
    supplied by the caller (`now` parameters); only their identity and
    ordering are ever observed by the code under verification.
  * Config values (strings and numeric literals) are embedded as their
    literal string rendering; the core never computes with them, it only
    stores, copies and serializes them.
  * The filesystem and subprocess layer is embedded as an explicit oracle
    (`Ext`): `fileExists` is `Path.exists()`, `dirFiles dir` is the listing
    of plain files in `dir` (empty for a missing directory, which matches
    the `if stage_dir.exists()` guard composed with `iterdir`), `run` is
    the outcome of one external script invocation, and `globClaude` is the
    result of the `glob` calls for the Claude-specific output patterns.
  * `uuid.uuid4()` is embedded as a caller-supplied `id` argument.
-/

namespace ContentEngine

/-- Lookup in an association list, mirroring `dict.get(k)` for a Python
dict embedded as an insertion-ordered list of key-value pairs. -/
def alistGet {α : Type} : List (String × α) → String → Option α
  | [], _ => none
  | kv :: t, k => if kv.1 = k then some kv.2 else alistGet t k

/-- Membership test, mirroring Python `k in dict`. -/
def alistHas {α : Type} (m : List (String × α)) (k : String) : Bool :=
  (alistGet m k).isSome

/-- Assignment `dict[k] = v`: replace the first binding of `k` in place, or
append a new binding at the end, exactly as insertion-ordered dicts do. -/
def alistUpsert {α : Type} : List (String × α) → String → α → List (String × α)
  | [], k, v => [(k, v)]
  | kv :: t, k, v => if kv.1 = k then (k, v) :: t else kv :: alistUpsert t k v

/-- Python `dict.update(overrides)`: assign every binding of `overrides`
in order. -/
def dictUpdate {α : Type} (m overrides : List (String × α)) : List (String × α) :=
  overrides.foldl (fun acc kv => alistUpsert acc kv.1 kv.2) m

/-- Substring test on character lists; auxiliary for `strContains`. -/
def listHasSubstring (needle : List Char) : List Char → Bool
  | [] => needle.isEmpty
  | c :: t => needle.isPrefixOf (c :: t) || listHasSubstring needle t

/-- Python substring test `needle in hay` on strings. -/
def strContains (hay needle : String) : Bool :=
  listHasSubstring needle.toList hay.toList

/-- Python `str.lower()`, character by character. -/
def pyLower (s : String) : String :=
  String.mk (s.toList.map Char.toLower)

/-- Python `str.replace(a, b)` for the single-character patterns the
repository uses (`' ' -> '-'` and `'_' -> '-'`), character by
character. -/
def pyReplaceChar (s : String) (a b : Char) : String :=
  String.mk (s.toList.map (fun c => if c = a then b else c))

/-- Python truthiness of an optional string (`if error:`): `None` and the
empty string are falsy. -/
def pyTruthy : Option String → Bool
  | none => false
  | some s => if s = "" then false else true

/-- Per-stage status record from `ContentProject.__init__`
(src/backend/models/project.py lines 40-46):
`{"status": ..., "completed_at": ..., "error": ...}`. -/
structure StageStatus where
  status : String
  completed_at : Option Nat
  error : Option String
deriving Repr, DecidableEq

/-- The `input_data` mapping from `ContentProject.__init__`
(src/backend/models/project.py lines 33-37). -/
structure InputData where
  seed_keywords : List String
  target_audience : String
  custom_instructions : String
deriving Repr, DecidableEq

/-- In-memory state of a `ContentProject`
(src/backend/models/project.py, `__init__`, lines 14-58). -/
structure ContentProject where
  project_id : String
  name : String
  description : String
  created_at : Nat
  updated_at : Nat
  config : List (String × String)
  input_data : InputData
  execution_status : List (String × StageStatus)
  output_files : List (String × List String)
  project_path : Option String
deriving Repr, DecidableEq

/-- Default config dict from `ContentProject.__init__` (lines 22-30);
numeric literals are kept as their source text. -/
def defaultConfig : List (String × String) :=
  [("target_location", "India"),
   ("target_language", "en"),
   ("serp_overlap_threshold", "0.3"),
   ("min_search_volume", "100"),
   ("max_competition", "0.3"),
   ("content_generator", "claude"),
   ("claude_model_preference", "quality")]

/-- Initial `execution_status` dict (lines 40-46): all five pipeline stage
names, all `pending`. -/
def initialStatus : List (String × StageStatus) :=
  [("keyword_research", ⟨"pending", none, none⟩),
   ("content_briefs", ⟨"pending", none, none⟩),
   ("article_writing", ⟨"pending", none, none⟩),
   ("social_media", ⟨"pending", none, none⟩),
   ("youtube_scripts", ⟨"pending", none, none⟩)]

/-- Initial `output_files` dict (lines 49-55). Note the keys: the last two
are `"articles"` and `"youtube"`, NOT the stage names `"article_writing"`
and `"youtube_scripts"` used everywhere else in the codebase. -/
def initialOutputs : List (String × List String) :=
  [("keyword_research", []),
   ("content_briefs", []),
   ("articles", []),
   ("social_media", []),
   ("youtube", [])]

/-- `ContentProject.__init__(name, description, project_id)`. The
`project_id or str(uuid.uuid4())` id generation is embedded by passing the
generated id as the `pid` argument; `datetime.now()` is the `now`
argument. -/
def ContentProject.init (name description pid : String) (now : Nat) : ContentProject :=
  { project_id := pid
    name := name
    description := description
    created_at := now
    updated_at := now
    config := defaultConfig
    input_data := { seed_keywords := [], target_audience := "", custom_instructions := "" }
    execution_status := initialStatus
    output_files := initialOutputs
    project_path := none }

/-- The `slug` property (lines 60-63):
`name.lower().replace(' ', '-').replace('_', '-')`. -/
def ContentProject.slug (p : ContentProject) : String :=
  pyReplaceChar (pyReplaceChar (pyLower p.name) ' ' '-') '_' '-'

/-- The `project_folder_name` property (lines 65-68):
`f"project-{self.project_id[:8]}-{self.slug}"`. -/
def ContentProject.project_folder_name (p : ContentProject) : String :=
  "project-" ++ p.project_id.take 8 ++ "-" ++ p.slug

/-- `get_project_path` (lines 70-74) with the default base directory
`"projects"`: returns the stored `project_path` when assigned, otherwise
derives (and in Python memoizes) `projects/<folder name>`. -/
def ContentProject.get_project_path (p : ContentProject) : String :=
  match p.project_path with
  | some q => q
  | none => "projects/" ++ p.project_folder_name

/-- Default stage-status record used to embed `execution_status.get(stage, {})`
followed by `.get("status", ...)`.  For a missing stage the Python code sees
either `None` or `"pending"` depending on the call site; both behave
identically in every comparison the code performs (they are never equal to
`"completed"`), so a single `"pending"` default is used. -/
def ContentProject.stageStatusOf (p : ContentProject) (stage : String) : StageStatus :=
  (alistGet p.execution_status stage).getD ⟨"pending", none, none⟩

/-- The per-entry mutation of `update_stage_status`
(src/backend/models/project.py lines 203-207): set `status`, set
`completed_at = now` when the new status is `completed`, and set `error`
only when the error argument is truthy (`if error:`). -/
def updTransform (s0 : StageStatus) (status : String) (error : Option String)
    (now : Nat) : StageStatus :=
  let s1 := { s0 with status := status }
  let s2 := if status == "completed" then { s1 with completed_at := some now } else s1
  if pyTruthy error then { s2 with error := error } else s2

/-- `update_stage_status(stage, status, error=None)`
(src/backend/models/project.py lines 199-216).  Returns the updated record
and the Python return value.  The in-place dict mutation is the map over
`execution_status`.  The trailing `self.save_config()` persists the
snapshot to disk; the disk write is modelled at the call sites where
persistence is observed. -/
def ContentProject.update_stage_status (p : ContentProject) (stage status : String)
    (error : Option String) (now : Nat) : ContentProject × Bool :=
  if alistHas p.execution_status stage then
    let es := p.execution_status.map (fun kv =>
      if kv.1 = stage then (kv.1, updTransform kv.2 status error now) else kv)
    ({ p with execution_status := es, updated_at := now }, true)
  else
    (p, false)

/-- `add_output_file(stage, file_path)` (src/backend/models/project.py
lines 218-231): records the file only when `stage` is a key of
`output_files` (whose keys are those of `initialOutputs`), returning
`True` in that case and `False` otherwise. -/
def ContentProject.add_output_file (p : ContentProject) (stage file_path : String)
    (now : Nat) : ContentProject × Bool :=
  if alistHas p.output_files stage then
    let existing := (alistGet p.output_files stage).getD []
    if existing.contains file_path then
      (p, true)
    else
      ({ p with output_files := alistUpsert p.output_files stage (existing ++ [file_path])
               , updated_at := now }, true)
  else
    (p, false)

/-- The error field of a stage entry, as stored (outer `none` = stage key
missing, inner value = the `error` slot). -/
def ContentProject.stageError (p : ContentProject) (stage : String) : Option (Option String) :=
  (alistGet p.execution_status stage).map StageStatus.error

/-- The persisted snapshot written by `save_config`
(src/backend/models/project.py lines 108-133): the `config_data` dict
serialized to `config.json`. -/
structure Snapshot where
  project_id : String
  name : String
  description : String
  created_at : Nat
  updated_at : Nat
  config : List (String × String)
  input_data : InputData
  execution_status : List (String × StageStatus)
  output_files : List (String × List String)
deriving Repr, DecidableEq

/-- The snapshot value `save_config` serializes (lines 114-124); the write
of this value into `<project dir>/config.json` is modelled by the `Disk`
updates at the call sites where persistence is observed. -/
def ContentProject.save_config_data (p : ContentProject) : Snapshot :=
  { project_id := p.project_id
    name := p.name
    description := p.description
    created_at := p.created_at
    updated_at := p.updated_at
    config := p.config
    input_data := p.input_data
    execution_status := p.execution_status
    output_files := p.output_files }

/-- `ContentProject.load_from_config(project_path)`
(src/backend/models/project.py lines 165-197) on a directory whose
`config.json` parses to `snap`: construct the instance via `__init__` and
then overwrite every persisted field from the parsed data, finally storing
the directory path in `project_path`.  `now` is the `datetime.now()` of
the transient `__init__` timestamps, which are overwritten. -/
def ContentProject.load_from_config (dir : String) (snap : Snapshot) (now : Nat) :
    ContentProject :=
  let p := ContentProject.init snap.name snap.description snap.project_id now
  { p with created_at := snap.created_at
           updated_at := snap.updated_at
           config := snap.config
           input_data := snap.input_data
           execution_status := snap.execution_status
           output_files := snap.output_files
           project_path := some dir }

/-- The projects base directory contents: folder name mapped to the parsed
`config.json` snapshot inside it.  Presence of a binding models that the
directory exists and holds a parseable `config.json`. -/
abbrev Disk := List (String × Snapshot)

/-- The `ProjectManager._project_cache` dict: project id mapped to the
cached in-memory record. -/
abbrev Cache := List (String × ContentProject)

/-- The expected directory name computed by
`ProjectManager._project_exists_on_filesystem`
(src/backend/core/project_manager.py line 82):
`f"project-{project.project_id[:8]}-{project.name.lower().replace(' ', '-')}"`.
Unlike `ContentProject.slug`, this derivation does NOT replace
underscores. -/
def expected_dir_name (p : ContentProject) : String :=
  "project-" ++ p.project_id.take 8 ++ "-" ++ pyReplaceChar (pyLower p.name) ' ' '-'

/-- `_project_exists_on_filesystem` (lines 75-93): the expected directory
and its `config.json` both exist, which in the `Disk` model is the presence
of a snapshot under the expected directory name. -/
def project_exists_on_filesystem (disk : Disk) (p : ContentProject) : Bool :=
  alistHas disk (expected_dir_name p)

/-- `_validate_project` (src/backend/core/project_manager.py
lines 169-188): non-empty id and name, non-empty `execution_status`, and
all five stage keys present. -/
def validate_project (p : ContentProject) : Bool :=
  !(p.project_id == "") && !(p.name == "") && !p.execution_status.isEmpty &&
    (["keyword_research", "content_briefs", "article_writing", "social_media",
      "youtube_scripts"].all (fun s => alistHas p.execution_status s))

/-- The filesystem scan of `load_project` (lines 58-72): iterate the base
directory entries; a directory matches when `project_id in project_dir.name`
(Python substring test on the FULL id).  A matching directory is loaded;
if the loaded record carries the requested id it is returned when it
validates, and `None` is returned immediately when validation fails;
otherwise the scan continues. -/
def load_project_scan : Disk → String → String → Nat → Option ContentProject
  | [], _, _, _ => none
  | (dirName, snap) :: rest, base, pid, now =>
    if strContains dirName pid then
      let p := ContentProject.load_from_config (base ++ "/" ++ dirName) snap now
      if p.project_id == pid then
        if validate_project p then some p else none
      else load_project_scan rest base pid now
    else load_project_scan rest base pid now

/-- `ProjectManager.load_project(project_id)`
(src/backend/core/project_manager.py lines 44-73): return the cached
record when its directory and config file still exist; otherwise (cache
miss or stale cache entry, which Python evicts) fall back to the
filesystem scan.  The cache insertions/evictions mutate only the cache and
never the returned value, so the model returns the value alone. -/
def load_project (disk : Disk) (cache : Cache) (base pid : String) (now : Nat) :
    Option ContentProject :=
  match alistGet cache pid with
  | some cp =>
    if project_exists_on_filesystem disk cp then some cp
    else load_project_scan disk base pid now
  | none => load_project_scan disk base pid now

/-- `ProjectManager.create_project(name, description, seed_keywords,
config_overrides)` (src/backend/core/project_manager.py lines 20-42)
composed with `ContentProject.create_project_structure`
(src/backend/models/project.py lines 76-106): build the record, set the
seed keywords when the list is truthy, `config.update` the overrides when
truthy, assign `project_path = <base>/<folder name>` (done inside
`get_project_path` during structure creation), write the `config.json`
snapshot (`save_config`), cache the record under its id, and return it.
Directory creation itself always succeeds in this model. -/
def create_project (disk : Disk) (cache : Cache) (id : String) (now : Nat)
    (base name description : String) (seed : List String)
    (overrides : List (String × String)) : ContentProject × Disk × Cache :=
  let p0 := ContentProject.init name description id now
  let p1 :=
    if seed.isEmpty then p0
    else { p0 with input_data := { p0.input_data with seed_keywords := seed } }
  let p2 :=
    if overrides.isEmpty then p1
    else { p1 with config := dictUpdate p1.config overrides }
  let p3 := { p2 with project_path := some (base ++ "/" ++ p2.project_folder_name) }
  let disk2 := alistUpsert disk p3.project_folder_name p3.save_config_data
  (p3, disk2, alistUpsert cache id p3)

/-- A progress update record (src/backend/utils/progress_tracker.py
lines 7-14).  `progress` is embedded as `Int`: every value the system
publishes is an integer (0, 10, ..., 100, and the -1 error sentinel), and
the clamp `max(0, min(100, progress))` is order-theoretic. -/
structure ProgressUpdate where
  project_id : String
  stage : String
  progress : Int
  message : String
  timestamp : Nat
deriving Repr, DecidableEq

/-- `ProgressTracker._progress_data`: project id mapped to (stage mapped to
the latest update). -/
abbrev TrackerState := List (String × List (String × ProgressUpdate))

/-- `ProgressTracker.update_progress(project_id, stage, progress, message)`
(src/backend/utils/progress_tracker.py lines 38-59): build the update with
`progress=max(0, min(100, progress))`, stamp the current time, store it as
the latest value for the pair.  The subscriber notification loop mutates
nothing in the tracker and is omitted. -/
def update_progress (st : TrackerState) (pid stage : String) (progress : Int)
    (message : String) (now : Nat) : TrackerState :=
  let u : ProgressUpdate :=
    { project_id := pid, stage := stage, progress := max 0 (min 100 progress)
      message := message, timestamp := now }
  let inner := (alistGet st pid).getD []
  alistUpsert st pid (alistUpsert inner stage u)

/-- `ProgressTracker.get_progress(project_id, stage=None)` (lines 61-77):
the specific stage slot, or with no stage the update with the maximal
timestamp (first maximum wins, as Python `max` does). -/
def get_progress (st : TrackerState) (pid : String) (stage : Option String) :
    Option ProgressUpdate :=
  match alistGet st pid with
  | none => none
  | some inner =>
    match stage with
    | some s => alistGet inner s
    | none =>
      match inner with
      | [] => none
      | x :: xs =>
        some (xs.foldl (fun acc kv => if kv.2.timestamp > acc.timestamp then kv.2 else acc) x.2)

/-- `ProgressTracker.cleanup_completed(max_age_hours)`
(src/backend/utils/progress_tracker.py lines 104-125).  Its first
statement is `cutoff_time = datetime.now() - time.timedelta(hours=max_age_hours)`;
the module imports `time` (the standard time module), which has no
attribute `timedelta` (that class lives in the datetime module and is not
imported), so every call raises `AttributeError` on line 106, before the
lock is taken and before any entry is examined.  The eviction logic below
the raise is dead code, embedded separately as `cleanup_eviction`. -/
def cleanup_completed (st : TrackerState) (max_age_hours : Nat) (now : Nat) :
    Except String TrackerState :=
  Except.error "AttributeError: module time has no attribute timedelta"

/-- The dead eviction logic of `cleanup_completed` (lines 108-125), as it
would run for a given `cutoff`: delete every entry with `progress >= 100`
and `timestamp < cutoff`, then drop every project left with no entries. -/
def cleanup_eviction (st : TrackerState) (cutoff : Nat) : TrackerState :=
  (st.map (fun pr =>
    (pr.1, pr.2.filter (fun kv =>
      !(decide (100 ≤ kv.2.progress) && decide (kv.2.timestamp < cutoff)))))).filter
    (fun pr => !pr.2.isEmpty)

/-- Outcome of one external script invocation (`subprocess.run`):
a completed process with its exit code and captured streams, a
`subprocess.TimeoutExpired`, or any other raised exception rendered as its
message string. -/
inductive SubRes where
  | completed (returncode : Int) (stdout : String) (stderr : String)
  | timedOut
  | raised (msg : String)
deriving Repr, DecidableEq

/-- The external world the executors interact with: the filesystem and the
subprocess layer, keyed by stage.  `dirFiles dir` lists the plain files of
`dir` (empty when the directory is missing); `globClaude projectDir` gives
the file NAMES in the project root matching the Claude output patterns of
`_organize_stage_outputs`. -/
structure Ext where
  fileExists : String → Bool
  dirFiles : String → List String
  run : String → SubRes
  globClaude : String → List String

/-- `ScriptExecutor.execute_keyword_research(project, progress_callback)`
(src/backend/core/script_executor.py lines 20-105).  Returns the boolean
result, the (possibly) updated record, and the `(percent, message)` pairs
passed to the progress callback, in order.  The temp-script creation and
its cleanup are filesystem effects with no influence on the returned
state; a `TimeoutExpired` from the 300-second `subprocess.run` is caught
by the generic `except Exception` like any other exception. -/
def execute_keyword_research (ext : Ext) (p : ContentProject) :
    Bool × ContentProject × List (Int × String) :=
  let pdir := p.get_project_path
  let ev0 : List (Int × String) := [(10, "Setting up keyword research...")]
  let seed := p.input_data.seed_keywords
  if seed.isEmpty then
    -- raise ValueError("No seed keywords found in project"), caught below
    (false, p, ev0 ++ [(-1, "Error: No seed keywords found in project")])
  else
    let ev1 := ev0 ++
      [(20, "Processing " ++ toString seed.length ++ " seed keywords..."),
       (30, "Creating modified script for project..."),
       (40, "Executing keyword research script...")]
    match ext.run "keyword_research" with
    | .raised m => (false, p, ev1 ++ [(-1, "Error: " ++ m)])
    | .timedOut => (false, p, ev1 ++ [(-1, "Error: Command timed out after 300 seconds")])
    | .completed rc _ _ =>
      let ev2 := ev1 ++ [(80, "Processing results...")]
      if !(rc == 0) then
        (false, p, ev2)
      else if !(ext.fileExists (pdir ++ "/stage_01_keyword_research/keyword_clusters.csv") &&
                ext.fileExists (pdir ++ "/stage_01_keyword_research/cluster_summary.csv")) then
        (false, p, ev2)
      else
        let outs := alistUpsert p.output_files "keyword_research"
          ["stage_01_keyword_research/keyword_clusters.csv",
           "stage_01_keyword_research/cluster_summary.csv"]
        let p1 := { p with output_files := outs }
        (true, p1, ev2 ++ [(100, "Keyword research completed successfully!")])

/-- `ScriptExecutor.execute_article_brief(project, progress_callback)`
(src/backend/core/script_executor.py lines 165-208).  When the keyword
research output `keyword_clusters.csv` is missing it reports
`(-1, "Keyword research must be completed first")` to the callback and
returns `False`; otherwise it writes the placeholder brief and records it
in `output_files["content_briefs"]`. -/
def execute_article_brief (ext : Ext) (p : ContentProject) :
    Bool × ContentProject × List (Int × String) :=
  let pdir := p.get_project_path
  let kfile := pdir ++ "/stage_01_keyword_research/keyword_clusters.csv"
  let ev0 : List (Int × String) := [(10, "Setting up article brief generation...")]
  if !(ext.fileExists kfile) then
    (false, p, ev0 ++ [(-1, "Keyword research must be completed first")])
  else
    let ev1 := ev0 ++ [(50, "Generating article brief...")]
    let outs := alistUpsert p.output_files "content_briefs"
      ["stage_02_content_briefs/article_brief.md"]
    let p1 := { p with output_files := outs }
    (true, p1, ev1 ++ [(100, "Article brief generated successfully!")])

/-- The `stage_scripts` table of `PipelineExecutor.__init__`
(src/backend/core/pipeline_executor.py lines 29-59), restricted to the
`(openai, claude)` script-name pairs used by `_get_script_path` for the
generator-variant stages. -/
def stage_script_names (stage : String) : Option (String × String) :=
  if stage == "content_briefs" then some ("ArticleBrief.py", "ArticleBrief_Claude.py")
  else if stage == "article_writing" then some ("ArticleWriter.py", "ArticleWriter_Claude.py")
  else if stage == "social_media" then some ("SocialMedia.py", "SocialMedia_Claude.py")
  else if stage == "youtube_scripts" then some ("YoutTubeScript.py", "YouTubeScript_Claude.py")
  else none

/-- The `outputs` lists of the `stage_scripts` table (lines 29-59). -/
def stage_expected_outputs (stage : String) : List String :=
  if stage == "keyword_research" then ["keyword_clusters.csv", "cluster_summary.csv"]
  else if stage == "content_briefs" then ["article_briefs.json", "article_briefs.md"]
  else if stage == "article_writing" then ["article_draft.json", "article_draft.md"]
  else if stage == "social_media" then ["social_posts.json", "social_posts.md"]
  else if stage == "youtube_scripts" then ["youtube_script.json", "youtube_script.md"]
  else []

/-- `PipelineExecutor._get_script_path(stage, content_generator)`
(lines 97-116): `keyword_research` has a single script; the other known
stages pick the generator-specific variant, falling back to the OpenAI one
for an unrecognized generator; unknown stages yield `None`.  (The Python
`stage_config.get(content_generator)` could also hit the `description` or
`outputs` keys of the table for those two exact generator strings, which
never occur; only the `openai`/`claude`/other cases are embedded.) -/
def get_script_path (sdir stage gen : String) : Option String :=
  if stage == "keyword_research" then some (sdir ++ "/KeywordResearcher.py")
  else
    match stage_script_names stage with
    | none => none
    | some oc =>
      let nm :=
        if gen == "claude" then oc.2
        else if gen == "openai" then oc.1
        else oc.1
      some (sdir ++ "/" ++ nm)

/-- The `stage_mapping` dict of `_organize_stage_outputs` (lines 254-260). -/
def stage_mapping : List (String × String) :=
  [("keyword_research", "stage_01_keyword_research"),
   ("content_briefs", "stage_02_content_briefs"),
   ("article_writing", "stage_03_articles"),
   ("social_media", "stage_04_social_media"),
   ("youtube_scripts", "stage_05_youtube")]

/-- `PipelineExecutor._organize_stage_outputs(project, stage)`
(src/backend/core/pipeline_executor.py lines 250-295): move each expected
output file found in the project root into the stage directory and record
it via `add_output_file`; for the `claude` generator additionally move and
record the pattern-matched files (source and destination directories
always differ, so the self-move guard always passes).  The physical file
moves are filesystem effects; the record updates are what the model
tracks. -/
def organize_stage_outputs (ext : Ext) (p : ContentProject) (stage : String)
    (now : Nat) : ContentProject :=
  let pdir := p.get_project_path
  let sdirPath := pdir ++ "/" ++ ((alistGet stage_mapping stage).getD stage)
  let p1 := (stage_expected_outputs stage).foldl
    (fun acc f =>
      if ext.fileExists (pdir ++ "/" ++ f) then
        (acc.add_output_file stage (sdirPath ++ "/" ++ f) now).1
      else acc) p
  if (alistGet p1.config "content_generator").getD "" == "claude" then
    (ext.globClaude pdir).foldl
      (fun acc nm => (acc.add_output_file stage (sdirPath ++ "/" ++ nm) now).1) p1
  else p1

/-- `get_stage_files(stage)` (src/backend/models/project.py lines 233-248).
Note its `stage_map` keys: `"articles"` and `"youtube"`, not
`"article_writing"`/`"youtube_scripts"`, so those two stage names fall
through to `[]`. -/
def ContentProject.get_stage_files (p : ContentProject) (ext : Ext) (stage : String) :
    List String :=
  let m : List (String × String) :=
    [("keyword_research", "stage_01_keyword_research"),
     ("content_briefs", "stage_02_content_briefs"),
     ("articles", "stage_03_articles"),
     ("social_media", "stage_04_social_media"),
     ("youtube", "stage_05_youtube")]
  match alistGet m stage with
  | some sub => ext.dirFiles (p.get_project_path ++ "/" ++ sub)
  | none => []

/-- The result dict of `execute_stage`: `success`, `message`, and the keys
present only on some paths (`outputs`, `stdout`, `stderr`) as options. -/
structure StageResult where
  success : Bool
  message : String
  outputs : Option (List String)
  stdout : Option String
  stderr : Option String
deriving Repr, DecidableEq

/-- A progress notification forwarded to the registered callbacks:
`(project_id, stage, progress, message)`. -/
abbrev Ev := String × String × Int × String

/-- `PipelineExecutor.execute_stage(project, stage, force_regenerate)`
(src/backend/core/pipeline_executor.py lines 118-248).  Returns the result
dict, the updated record, and the progress notifications in order.

Branch structure mirrors the source: an already-`completed` stage without
`force_regenerate` short-circuits to a success carrying
`get_stage_files(stage)`; otherwise the stage is set `running` and
delegated to `execute_keyword_research` / `execute_article_brief` (whose
`False` results are raised and caught by the generic handler, yielding
`"Error executing stage: ..."` failures) or, for the remaining stages, to
the external script with the 1-hour timeout, whose nonzero exit yields
`"Script execution failed: <stderr>"`.  `update_stage_status` persists via
`save_config`; the disk write is not observed by any property stated over
this function. -/
def execute_stage (ext : Ext) (sdir : String) (p : ContentProject) (stage : String)
    (force_regenerate : Bool) (now : Nat) : StageResult × ContentProject × List Ev :=
  let stage_status := p.stageStatusOf stage
  if stage_status.status == "completed" && !force_regenerate then
    ({ success := true, message := "Stage " ++ stage ++ " already completed"
       outputs := some (p.get_stage_files ext stage), stdout := none, stderr := none },
     p, [])
  else
    let p := (p.update_stage_status stage "running" none now).1
    let evs : List Ev := [(p.project_id, stage, 0, "Starting stage execution")]
    if stage == "keyword_research" then
      let z := execute_keyword_research ext p
      let p1 := z.2.1
      let evs := evs ++ z.2.2.map (fun e => (p.project_id, stage, e.1, e.2))
      if z.1 then
        let p2 := (p1.update_stage_status stage "completed" none now).1
        ({ success := true, message := "Stage " ++ stage ++ " completed successfully"
           outputs := some ((alistGet p2.output_files stage).getD [])
           stdout := none, stderr := none }, p2, evs)
      else
        -- raise Exception("Keyword research execution failed"), caught at line 245
        let msg := "Error executing stage: Keyword research execution failed"
        let p2 := (p1.update_stage_status stage "failed" (some msg) now).1
        ({ success := false, message := msg, outputs := none
           stdout := none, stderr := none }, p2, evs)
    else if stage == "content_briefs" then
      let z := execute_article_brief ext p
      let p1 := z.2.1
      let evs := evs ++ z.2.2.map (fun e => (p.project_id, stage, e.1, e.2))
      if z.1 then
        let p2 := (p1.update_stage_status stage "completed" none now).1
        ({ success := true, message := "Stage " ++ stage ++ " completed successfully"
           outputs := some ((alistGet p2.output_files stage).getD [])
           stdout := none, stderr := none }, p2, evs)
      else
        -- raise Exception("Article brief generation failed"), caught at line 245
        let msg := "Error executing stage: Article brief generation failed"
        let p2 := (p1.update_stage_status stage "failed" (some msg) now).1
        ({ success := false, message := msg, outputs := none
           stdout := none, stderr := none }, p2, evs)
    else
      let gen := (alistGet p.config "content_generator").getD "claude"
      match get_script_path sdir stage gen with
      | none =>
        -- raise FileNotFoundError(f"Script not found for stage {stage}")
        let msg := "Error executing stage: Script not found for stage " ++ stage
        let p2 := (p.update_stage_status stage "failed" (some msg) now).1
        ({ success := false, message := msg, outputs := none
           stdout := none, stderr := none }, p2, evs)
      | some sp =>
        if !(ext.fileExists sp) then
          let msg := "Error executing stage: Script not found for stage " ++ stage
          let p2 := (p.update_stage_status stage "failed" (some msg) now).1
          ({ success := false, message := msg, outputs := none
             stdout := none, stderr := none }, p2, evs)
        else
          let evs := evs ++ [(p.project_id, stage, 25, "Executing script")]
          match ext.run stage with
          | .timedOut =>
            -- except subprocess.TimeoutExpired (line 240)
            let msg := "Script execution timed out"
            let p2 := (p.update_stage_status stage "failed" (some msg) now).1
            ({ success := false, message := msg, outputs := none
               stdout := none, stderr := none }, p2, evs)
          | .raised m =>
            let msg := "Error executing stage: " ++ m
            let p2 := (p.update_stage_status stage "failed" (some msg) now).1
            ({ success := false, message := msg, outputs := none
               stdout := none, stderr := none }, p2, evs)
          | .completed rc out err =>
            let evs := evs ++ [(p.project_id, stage, 75, "Processing outputs")]
            if rc == 0 then
              let p1 := organize_stage_outputs ext p stage now
              let p2 := (p1.update_stage_status stage "completed" none now).1
              let evs := evs ++ [(p.project_id, stage, 100, "Stage completed successfully")]
              ({ success := true, message := "Stage " ++ stage ++ " completed successfully"
                 outputs := some (p2.get_stage_files ext stage)
                 stdout := some out, stderr := some err }, p2, evs)
            else
              let msg := "Script execution failed: " ++ err
              let p2 := (p.update_stage_status stage "failed" (some msg) now).1
              ({ success := false, message := msg, outputs := none
                 stdout := some out, stderr := some err }, p2, evs)

/-- The declared stage order used by `execute_full_pipeline` and
`get_pipeline_status` (src/backend/core/pipeline_executor.py
lines 302-303). -/
def pipelineStages : List String :=
  ["keyword_research", "content_briefs", "article_writing", "social_media",
   "youtube_scripts"]

/-- The `stage_dependencies` table of `can_execute_stage`
(src/backend/core/pipeline_executor.py lines 361-367), with the
`.get(stage, [])` default for unknown stages. -/
def stage_dependencies (stage : String) : List String :=
  if stage == "keyword_research" then []
  else if stage == "content_briefs" then ["keyword_research"]
  else if stage == "article_writing" then ["keyword_research", "content_briefs"]
  else if stage == "social_media" then
    ["keyword_research", "content_briefs", "article_writing"]
  else if stage == "youtube_scripts" then
    ["keyword_research", "content_briefs", "article_writing"]
  else []

/-- `project.execution_status.get(dep_stage, {}).get("status", "pending")`
(line 372). -/
def depStatus (p : ContentProject) (d : String) : String :=
  (p.stageStatusOf d).status

/-- The reason string built on line 374 for an unmet dependency. -/
def depReason (p : ContentProject) (d : String) : String :=
  "Dependency " ++ d ++ " not completed (status: " ++ depStatus p d ++ ")"

/-- The dependency loop of `can_execute_stage` (lines 371-376): return
false with the reason for the FIRST dependency in table order whose status
is not `completed`. -/
def checkDependencies (p : ContentProject) : List String → Bool × String
  | [] => (true, "Dependencies satisfied")
  | d :: rest =>
    if depStatus p d ≠ "completed" then (false, depReason p d)
    else checkDependencies p rest

/-- `PipelineExecutor.can_execute_stage(project, stage)`
(src/backend/core/pipeline_executor.py lines 358-376). -/
def can_execute_stage (p : ContentProject) (stage : String) : Bool × String :=
  checkDependencies p (stage_dependencies stage)

/-- The overall result dict of `execute_full_pipeline`: `results` is the
insertion-ordered dict of per-stage results. -/
structure PipelineResult where
  success : Bool
  results : List (String × StageResult)
  project_id : String
deriving Repr, DecidableEq

/-- The stage loop of `execute_full_pipeline` (lines 313-322): run the
remaining stages in order, collecting results, and break after the first
failing stage.  `i` is the running `enumerate` index; the per-iteration
pipeline progress event is `(i / len(stages)) * 100` with
`len(stages) = 5` (an exact integer for every reachable `i`). -/
def run_pipeline_stages (ext : Ext) (sdir : String) (force : Bool) (now : Nat) :
    ContentProject → List String → Nat →
      List (String × StageResult) × Bool × ContentProject × List Ev
  | p, [], _ => ([], true, p, [])
  | p, stage :: rest, i =>
    let ev0 : Ev := (p.project_id, "pipeline", Int.ofNat (i * 100 / 5),
      "Executing " ++ stage)
    let z := execute_stage ext sdir p stage force now
    if z.1.success then
      let w := run_pipeline_stages ext sdir force now z.2.1 rest (i + 1)
      ((stage, z.1) :: w.1, w.2.1, w.2.2.1, ev0 :: (z.2.2 ++ w.2.2.2))
    else
      ([(stage, z.1)], false, z.2.1, ev0 :: z.2.2)

/-- `PipelineExecutor.execute_full_pipeline(project, start_stage,
force_regenerate)` (src/backend/core/pipeline_executor.py lines 297-331):
find the starting index (0 unless `start_stage` names a known stage),
iterate the remaining stages with fail-fast, emit the final pipeline
progress event, and return the aggregate result. -/
def execute_full_pipeline (ext : Ext) (sdir : String) (p : ContentProject)
    (start_stage : Option String) (force : Bool) (now : Nat) :
    PipelineResult × ContentProject × List Ev :=
  let stages := pipelineStages
  let si :=
    match start_stage with
    | some s => if stages.contains s then stages.indexOf s else 0
    | none => 0
  let w := run_pipeline_stages ext sdir force now p (stages.drop si) si
  let finalMsg :=
    if w.2.1 then "Pipeline execution completed" else "Pipeline execution failed"
  let finalEv : Ev := (p.project_id, "pipeline", 100, finalMsg)
  ({ success := w.2.1, results := w.1, project_id := p.project_id }, w.2.2.1,
   w.2.2.2 ++ [finalEv])

/-
Auxiliary lemmas about the association-list embedding of Python dicts.
-/

theorem alistGet_upsert_self {α : Type} (k : String) (v : α) :
    ∀ m : List (String × α), alistGet (alistUpsert m k v) k = some v := by
  intro m
  induction m with
  | nil => simp [alistUpsert, alistGet]
  | cons kv t ih =>
    by_cases h : kv.1 = k
    · simp [alistUpsert, alistGet, h]
    · simp [alistUpsert, alistGet, h, ih]

theorem alistGet_map_cond {α : Type} (g : α → α) (k : String) :
    ∀ (l : List (String × α)) (j : String),
      alistGet (l.map (fun kv => if kv.1 = k then (kv.1, g kv.2) else kv)) j =
        if j = k then Option.map g (alistGet l j) else alistGet l j := by
  intro l
  induction l with
  | nil =>
    intro j
    by_cases h : j = k <;> simp [alistGet, h]
  | cons kv t ih =>
    intro j
    by_cases h1 : kv.1 = k
    · by_cases h2 : kv.1 = j
      · have hjk : j = k := h2.symm.trans h1
        simp [alistGet, h1, h2, hjk]
      · have hjk : ¬(j = k) := fun he => h2 (h1.trans he.symm)
        have hkj : ¬(k = j) := fun he => hjk he.symm
        simp [alistGet, h1, h2, hjk, hkj, ih j]
    · by_cases h2 : kv.1 = j
      · have hjk : ¬(j = k) := fun he => h1 (h2.symm ▸ he ▸ rfl)
        simp [alistGet, h1, h2, hjk]
      · simp [alistGet, h1, h2, ih j]

theorem update_stage_status_stageStatusOf_self (p : ContentProject)
    (stage status : String) (error : Option String) (now : Nat)
    (h : alistHas p.execution_status stage = true) :
    ((p.update_stage_status stage status error now).1).stageStatusOf stage =
      updTransform (p.stageStatusOf stage) status error now := by
  obtain ⟨v, hv⟩ : ∃ v, alistGet p.execution_status stage = some v := by
    cases hx : alistGet p.execution_status stage with
    | none => rw [alistHas, hx] at h; simp at h
    | some v => exact ⟨v, rfl⟩
  have hmap := alistGet_map_cond (fun s0 => updTransform s0 status error now) stage
    p.execution_status stage
  rw [if_pos rfl] at hmap
  simp [ContentProject.update_stage_status, h, ContentProject.stageStatusOf, hmap, hv]

theorem update_stage_status_has (p : ContentProject) (stage status : String)
    (error : Option String) (now : Nat) (j : String) :
    alistHas ((p.update_stage_status stage status error now).1).execution_status j =
      alistHas p.execution_status j := by
  by_cases h : alistHas p.execution_status stage
  · have hmap := alistGet_map_cond (fun s0 => updTransform s0 status error now) stage
      p.execution_status j
    have h2 : (alistGet p.execution_status stage).isSome = true := by
      simpa [alistHas] using h
    by_cases hj : j = stage
    · subst hj
      rw [if_pos rfl] at hmap
      simp [ContentProject.update_stage_status, alistHas, h2, hmap]
    · rw [if_neg hj] at hmap
      simp [ContentProject.update_stage_status, alistHas, h2, hmap]
  · simp [ContentProject.update_stage_status, h]

/-
Shared concrete fixtures used by witnesses and counterexamples.
-/

/-- A freshly constructed project record, as `ContentProject("Demo")` with a
fixed generated id and creation time. -/
def freshProject : ContentProject := ContentProject.init "Demo" "" "id-0" 0

/-- An external world with no files on disk and trivially succeeding
subprocesses. -/
def extEmpty : Ext :=
  { fileExists := fun _ => false
    dirFiles := fun _ => []
    run := fun _ => .completed 0 "" ""
    globClaude := fun _ => [] }

/-
C2 support: characterization of the dependency loop.
-/

theorem checkDependencies_true_iff (p : ContentProject) :
    ∀ l : List String,
      (checkDependencies p l).1 = true ↔ ∀ d ∈ l, depStatus p d = "completed" := by
  intro l
  induction l with
  | nil => simp [checkDependencies]
  | cons d rest ih =>
    by_cases h : depStatus p d = "completed"
    · simp [checkDependencies, h, ih]
    · simp [checkDependencies, h]

theorem checkDependencies_first_unmet (p : ContentProject) :
    ∀ (l1 : List String) (d : String) (l2 : List String),
      (∀ x ∈ l1, depStatus p x = "completed") → depStatus p d ≠ "completed" →
      checkDependencies p (l1 ++ d :: l2) = (false, depReason p d) := by
  intro l1
  induction l1 with
  | nil =>
    intro d l2 _ hd
    simp [checkDependencies, hd]
  | cons a t ih =>
    intro d l2 hall hd
    have ha : depStatus p a = "completed" := hall a (List.mem_cons_self a t)
    have hrest := ih d l2 (fun x hx => hall x (List.mem_cons_of_mem a hx)) hd
    simp [checkDependencies, ha, hrest]

/-- C2: `can_execute_stage(project, stage)` returns true iff every
dependency of `stage` in the fixed `stage_dependencies` table has status
`completed`; when some dependency is unmet, it returns false together with
the reason string naming the first unmet dependency in table order; and the
dependency list of `youtube_scripts` is exactly
`[keyword_research, content_briefs, article_writing]` — in particular it
does not include `social_media`. -/
theorem can_execute_stage_spec :
    (∀ (p : ContentProject) (stage : String),
      (can_execute_stage p stage).1 = true ↔
        ∀ d ∈ stage_dependencies stage, depStatus p d = "completed")
    ∧ (∀ (p : ContentProject) (stage : String) (l1 : List String) (d : String)
        (l2 : List String),
        stage_dependencies stage = l1 ++ d :: l2 →
        (∀ x ∈ l1, depStatus p x = "completed") →
        depStatus p d ≠ "completed" →
        can_execute_stage p stage = (false, depReason p d))
    ∧ stage_dependencies "youtube_scripts" =
        ["keyword_research", "content_briefs", "article_writing"]
    ∧ "social_media" ∉ stage_dependencies "youtube_scripts" := by
  refine ⟨?_, ?_, by decide, by decide⟩
  · intro p stage
    exact checkDependencies_true_iff p (stage_dependencies stage)
  · intro p stage l1 d l2 he hall hd
    rw [can_execute_stage, he]
    exact checkDependencies_first_unmet p l1 d l2 hall hd

/-- C2 witness: on a fresh project, `content_briefs` is blocked and the
reason names `keyword_research` with its `pending` status. -/
theorem can_execute_stage_spec_witness :
    can_execute_stage freshProject "content_briefs" =
      (false, "Dependency keyword_research not completed (status: pending)") := by
  have h := can_execute_stage_spec.2.1 freshProject "content_briefs" [] "keyword_research"
    [] (by decide) (by simp) (by decide)
  exact h.trans (by decide)

/-
C10: update_stage_status never clears the error field.
-/

theorem updTransform_error_of_none (s0 : StageStatus) (status : String) (now : Nat) :
    (updTransform s0 status none now).error = s0.error := by
  unfold updTransform
  simp [pyTruthy]
  split <;> rfl

/-- C10: `update_stage_status` with no error argument (the `running` and
`completed` transitions) leaves every stage's stored `error` unchanged; in
particular a stage driven `failed` (with an error) → `running` →
`completed` ends with status `completed` while still carrying the old
error message. -/
theorem update_stage_status_never_clears_error :
    (∀ (p : ContentProject) (stage status : String) (now : Nat) (j : String),
      ((p.update_stage_status stage status none now).1).stageError j = p.stageError j)
    ∧ (∀ (p : ContentProject) (s e : String) (n1 n2 n3 : Nat),
        alistHas p.execution_status s = true → e ≠ "" →
        (((((p.update_stage_status s "failed" (some e) n1).1.update_stage_status s
            "running" none n2).1.update_stage_status s "completed" none n3).1.stageStatusOf
            s).status = "completed"
        ∧ ((((p.update_stage_status s "failed" (some e) n1).1.update_stage_status s
            "running" none n2).1.update_stage_status s "completed" none n3).1.stageStatusOf
            s).error = some e)) := by
  constructor
  · intro p stage status now j
    by_cases h : alistHas p.execution_status stage
    · have hmap := alistGet_map_cond (fun s0 => updTransform s0 status none now) stage
        p.execution_status j
      have herr : (fun s0 => (updTransform s0 status none now).error) = StageStatus.error :=
        funext (fun s0 => updTransform_error_of_none s0 status now)
      by_cases hj : j = stage
      · subst hj
        rw [if_pos rfl] at hmap
        simp [ContentProject.update_stage_status, h, ContentProject.stageError, hmap,
          Option.map_map, Function.comp_def, herr]
      · rw [if_neg hj] at hmap
        simp [ContentProject.update_stage_status, h, ContentProject.stageError, hmap]
    · simp [ContentProject.update_stage_status, h]
  · intro p s e n1 n2 n3 h he
    have h1 : alistHas ((p.update_stage_status s "failed" (some e) n1).1).execution_status
        s = true := by rw [update_stage_status_has]; exact h
    have h2 : alistHas (((p.update_stage_status s "failed" (some e) n1).1.update_stage_status
        s "running" none n2).1).execution_status s = true := by
      rw [update_stage_status_has]; exact h1
    rw [update_stage_status_stageStatusOf_self _ _ _ _ _ h2,
      update_stage_status_stageStatusOf_self _ _ _ _ _ h1,
      update_stage_status_stageStatusOf_self _ _ _ _ _ h]
    constructor <;> simp [updTransform, pyTruthy, he]

/-- C10 witness: the scenario instantiated on a fresh project, for stage
`content_briefs` with old error `"boom"`. -/
theorem update_stage_status_never_clears_error_witness :
    ((((freshProject.update_stage_status "content_briefs" "failed" (some "boom")
        1).1.update_stage_status "content_briefs" "running" none
        2).1.update_stage_status "content_briefs" "completed" none
        3).1.stageStatusOf "content_briefs").status = "completed"
    ∧ ((((freshProject.update_stage_status "content_briefs" "failed" (some "boom")
        1).1.update_stage_status "content_briefs" "running" none
        2).1.update_stage_status "content_briefs" "completed" none
        3).1.stageStatusOf "content_briefs").error = some "boom" :=
  update_stage_status_never_clears_error.2 freshProject "content_briefs" "boom" 1 2 3
    (by decide) (by decide)

/-
C4: progress clamping and the -1 sentinel.
-/

/-- C4 counterexample: publishing the documented error sentinel -1 does not
store -1; the stored latest update for the pair has progress 0, because
`update_progress` clamps every value with `max(0, min(100, progress))`. -/
theorem update_progress_minus_one_not_preserved :
    (get_progress (update_progress [] "proj" "keyword_research" (-1) "failed" 5) "proj"
      (some "keyword_research")).map ProgressUpdate.progress = some 0
    ∧ ¬((get_progress (update_progress [] "proj" "keyword_research" (-1) "failed" 5) "proj"
      (some "keyword_research")).map ProgressUpdate.progress = some (-1)) := by
  decide

/-- C4 amended: `update_progress` clamps EVERY published value into
[0, 100] — including the -1 sentinel, which is stored as 0 — and stores the
clamped value, the message and the timestamp as the latest update for the
(project, stage) pair. -/
theorem update_progress_clamps_all_values :
    ∀ (st : TrackerState) (pid stage : String) (progress : Int) (message : String)
      (now : Nat),
      get_progress (update_progress st pid stage progress message now) pid (some stage) =
        some { project_id := pid, stage := stage, progress := max 0 (min 100 progress)
               message := message, timestamp := now } := by
  intro st pid stage progress message now
  simp [update_progress, get_progress, alistGet_upsert_self]

/-
C5: cleanup_completed always raises before evicting anything.
-/

/-- C5: every call of `cleanup_completed` raises `AttributeError` at its
first statement (`time.timedelta` does not exist; `timedelta` lives in the
un-imported datetime module), so no eviction ever happens — here evaluated
on a bus holding one fully-completed entry far older than the 24-hour
default bound, which the claim says would be removed. -/
theorem cleanup_completed_always_raises :
    cleanup_completed
      [("proj", [("keyword_research",
        { project_id := "proj", stage := "keyword_research", progress := 100
          message := "done", timestamp := 0 })])] 24 1000000 =
      Except.error "AttributeError: module time has no attribute timedelta" := rfl

/-- Support for C5: the dead eviction code below the raise would indeed
never drop an in-flight entry (progress < 100): any such entry survives
into the resulting bus state under its project. -/
theorem cleanup_eviction_keeps_inflight (st : TrackerState) (cutoff : Nat) :
    ∀ pr ∈ st, ∀ kv ∈ pr.2, kv.2.progress < 100 →
      ∃ stages, (pr.1, stages) ∈ cleanup_eviction st cutoff ∧ kv ∈ stages := by
  intro pr hpr kv hkv hlt
  have hcond : (!(decide (100 ≤ kv.2.progress) && decide (kv.2.timestamp < cutoff))) =
      true := by
    have : ¬(100 ≤ kv.2.progress) := not_le.mpr hlt
    simp [this]
  have hmem : kv ∈ pr.2.filter
      (fun kv => !(decide (100 ≤ kv.2.progress) && decide (kv.2.timestamp < cutoff))) :=
    List.mem_filter.mpr ⟨hkv, hcond⟩
  refine ⟨pr.2.filter
    (fun kv => !(decide (100 ≤ kv.2.progress) && decide (kv.2.timestamp < cutoff))), ?_, hmem⟩
  unfold cleanup_eviction
  apply List.mem_filter.mpr
  constructor
  · exact List.mem_map.mpr ⟨pr, hpr, rfl⟩
  · show (!(pr.2.filter
      (fun kv => !(decide (100 ≤ kv.2.progress) && decide (kv.2.timestamp < cutoff)))).isEmpty)
      = true
    cases hfe : (pr.2.filter
      (fun kv => !(decide (100 ≤ kv.2.progress) && decide (kv.2.timestamp < cutoff)))).isEmpty
    · rfl
    · exact absurd (List.isEmpty_iff.mp hfe) (List.ne_nil_of_mem hmem)

/-
C6: add_output_file and the mismatched output_files keys.
-/

/-- C6: `add_output_file` on a fresh record with the stage names
`article_writing` and `youtube_scripts` — exactly what
`_organize_stage_outputs` passes for those stages — returns `False` and
records nothing, because the `output_files` dict is keyed `articles` and
`youtube` instead; the other three stage names are recorded normally
(shown for `keyword_research`). -/
theorem add_output_file_misses_writer_stages :
    freshProject.add_output_file "article_writing"
      "projects/p/stage_03_articles/article_draft.md" 1 = (freshProject, false)
    ∧ freshProject.add_output_file "youtube_scripts"
      "projects/p/stage_05_youtube/youtube_script.md" 1 = (freshProject, false)
    ∧ alistGet freshProject.output_files "article_writing" = none
    ∧ alistGet freshProject.output_files "youtube_scripts" = none
    ∧ (freshProject.add_output_file "keyword_research" "k.csv" 1).2 = true
    ∧ alistGet (freshProject.add_output_file "keyword_research" "k.csv" 1).1.output_files
        "keyword_research" = some ["k.csv"] := by
  decide

/-
C1: idempotent short-circuit of execute_stage on a completed stage.
-/

/-- C1: when the stage is already `completed` and `force_regenerate` is not
set, `execute_stage` returns a success result carrying the files recorded
on disk for that stage (`get_stage_files`), leaves the project record —
and hence the stage's `completed_at` — entirely unchanged, emits no
progress events, and the outcome is independent of the subprocess layer
(`run`), i.e. the stage executor is not invoked. -/
theorem execute_stage_completed_short_circuit (ext : Ext) (sdir : String)
    (p : ContentProject) (stage : String) (now : Nat)
    (h : (p.stageStatusOf stage).status = "completed") :
    execute_stage ext sdir p stage false now =
      ({ success := true, message := "Stage " ++ stage ++ " already completed"
         outputs := some (p.get_stage_files ext stage), stdout := none, stderr := none },
       p, [])
    ∧ ∀ run2 : String → SubRes,
        execute_stage { ext with run := run2 } sdir p stage false now =
          execute_stage ext sdir p stage false now := by
  constructor
  · simp [execute_stage, h]
  · intro run2
    simp [execute_stage, h, ContentProject.get_stage_files]

/-- Fixture for C1: a project whose `keyword_research` stage completed at
time 42, in a world whose stage directories hold one file. -/
def c1Project : ContentProject :=
  { freshProject with
    project_path := some "projects/demo"
    execution_status := alistUpsert freshProject.execution_status "keyword_research"
      { status := "completed", completed_at := some 42, error := none } }

/-- Fixture for C1: a world where every directory listing yields one file. -/
def c1Ext : Ext := { extEmpty with dirFiles := fun _ => ["keyword_clusters.csv"] }

/-- C1 witness: the short-circuit evaluated on the concrete fixture. -/
theorem execute_stage_completed_short_circuit_witness :
    execute_stage c1Ext "scripts" c1Project "keyword_research" false 7 =
      ({ success := true, message := "Stage " ++ "keyword_research" ++ " already completed"
         outputs := some (c1Project.get_stage_files c1Ext "keyword_research")
         stdout := none, stderr := none }, c1Project, []) :=
  (execute_stage_completed_short_circuit c1Ext "scripts" c1Project "keyword_research" 7
    (by decide)).1

/-
C7: failure result of a dependency-blocked content_briefs run.
-/

/-- Fixture: a fresh project with an assigned project directory. -/
def prDemo : ContentProject := { freshProject with project_path := some "projects/demo" }

/-- C7 counterexample: on a fresh project whose keyword research has not
run, `execute_stage(project, "content_briefs")` returns a failure whose
message is the generic exception wrapper and does NOT mention the blocking
dependency `keyword_research`. -/
theorem blocked_briefs_message_lacks_dependency :
    (execute_stage extEmpty "scripts" prDemo "content_briefs" false 1).1.success = false
    ∧ strContains
        (execute_stage extEmpty "scripts" prDemo "content_briefs" false 1).1.message
        "keyword_research" = false := by
  decide

/-- C7 amended: with `keyword_research` outputs absent, running
`content_briefs` fails; the returned message is exactly
`"Error executing stage: Article brief generation failed"` (which does not
name the dependency); the dependency is surfaced only through the progress
callback event `(-1, "Keyword research must be completed first")`; and the
stage is recorded `failed` with that same generic message. -/
theorem blocked_briefs_failure_shape (ext : Ext) (sdir pd : String)
    (p : ContentProject) (now : Nat)
    (hstat : p.execution_status = initialStatus)
    (hpath : p.project_path = some pd)
    (hk : ext.fileExists (pd ++ "/stage_01_keyword_research/keyword_clusters.csv") = false) :
    (execute_stage ext sdir p "content_briefs" false now).1.success = false
    ∧ (execute_stage ext sdir p "content_briefs" false now).1.message =
        "Error executing stage: Article brief generation failed"
    ∧ (p.project_id, "content_briefs", (-1 : Int),
        "Keyword research must be completed first") ∈
        (execute_stage ext sdir p "content_briefs" false now).2.2
    ∧ ((execute_stage ext sdir p "content_briefs" false now).2.1.stageStatusOf
        "content_briefs").status = "failed"
    ∧ ((execute_stage ext sdir p "content_briefs" false now).2.1.stageStatusOf
        "content_briefs").error =
        some "Error executing stage: Article brief generation failed" := by
  refine ⟨?_, ?_, ?_, ?_, ?_⟩ <;>
    simp [execute_stage, execute_article_brief, ContentProject.update_stage_status,
      updTransform, ContentProject.stageStatusOf, ContentProject.get_project_path,
      alistGet, alistHas, alistUpsert, pyTruthy, initialStatus, hstat, hpath, hk]

/-- C7 witness for the amended statement, on the concrete fixture. -/
theorem blocked_briefs_failure_shape_witness :
    (execute_stage extEmpty "scripts" prDemo "content_briefs" false 1).1.message =
      "Error executing stage: Article brief generation failed"
    ∧ (prDemo.project_id, "content_briefs", (-1 : Int),
        "Keyword research must be completed first") ∈
        (execute_stage extEmpty "scripts" prDemo "content_briefs" false 1).2.2 :=
  ⟨(blocked_briefs_failure_shape extEmpty "scripts" "projects/demo" prDemo 1 rfl rfl
      rfl).2.1,
   (blocked_briefs_failure_shape extEmpty "scripts" "projects/demo" prDemo 1 rfl rfl
      rfl).2.2.1⟩

/-
C8 and C9: persisted projects, the loader scan, and the cache check.
-/

/-- A uuid4-shaped project id, as `str(uuid.uuid4())` produces at creation
(36 characters; the folder name embeds only the first 8). -/
def exUuid : String := "aaaabbbb-cccc-dddd-eeee-ffffffffffff"

/-- Fixture for C8: a project created on an empty store. -/
def c8Created : ContentProject × Disk × Cache :=
  create_project [] [] exUuid 0 "projects" "demo" "" ["ai marketing", "ai tools"] []

/-- C8: the created project's directory `project-aaaabbbb-demo` exists on
disk with its valid persisted snapshot (it validates), yet `load_project`
with an empty cache returns not-found: the scan requires the FULL 36-char
id to be a substring of the folder name, which only embeds the 8-char
prefix. -/
theorem load_project_misses_persisted_project :
    alistGet c8Created.2.1 "project-aaaabbbb-demo" = some c8Created.1.save_config_data
    ∧ validate_project c8Created.1 = true
    ∧ load_project c8Created.2.1 [] "projects" exUuid 1 = none := by
  decide

/-- Fixture for C9: a project named with an underscore, created on an
empty store; `create_project` caches it. -/
def c9Created : ContentProject × Disk × Cache :=
  create_project [] [] exUuid 0 "projects" "my_project" "" ["ai marketing"] []

/-- C9: after creating a project named `my_project`, loading it back by
the id `create` returned yields not-found instead of the created record:
the cache check re-derives the folder name without the underscore
replacement that `slug` performed (`project-aaaabbbb-my_project` vs the
real `project-aaaabbbb-my-project`), evicts the fresh cache entry, and the
fallback scan then misses as in C8. -/
theorem create_load_roundtrip_fails_underscore_name :
    c9Created.1.project_id = exUuid
    ∧ c9Created.1.name = "my_project"
    ∧ alistGet c9Created.2.2 exUuid = some c9Created.1
    ∧ alistGet c9Created.2.1 c9Created.1.project_folder_name =
        some c9Created.1.save_config_data
    ∧ load_project c9Created.2.1 c9Created.2.2 "projects" exUuid 1 = none := by
  decide

/-- Support for C8/C9: for a name without underscores the cache check
accepts the entry created by `create_project` and the round trip returns
the very record `create` returned — the failures above are precisely the
full-id substring slip and the underscore-derivation slip. -/
theorem create_load_roundtrip_ok_without_underscore :
    load_project c8Created.2.1 c8Created.2.2 "projects" exUuid 1 = some c8Created.1 := by
  decide

/-
C3: fail-fast behavior of execute_full_pipeline.
-/

/-- C3: on a fresh project (all five stages `pending`) in a world where
the first two stages succeed (keyword research subprocess exits 0 and its
output files appear; the keyword clusters file lets the brief generator
run) and the third stage's script exits nonzero with some stderr,
`execute_full_pipeline` from the first stage reports exactly three
results — the first two successful, `article_writing` failed with the
captured `"Script execution failed: <stderr>"` message — the overall run
is a failure, the final statuses are
`completed, completed, failed, pending, pending` in pipeline order (so the
fourth and fifth stages were never executed and remain `pending`), and the
failed stage's stored error is the same captured message. -/
theorem pipeline_fail_fast (ext : Ext) (sdir pd o2 e2 : String)
    (p : ContentProject) (now : Nat) (rc : Int) (o1 e1 : String)
    (hstat : p.execution_status = initialStatus)
    (hpath : p.project_path = some pd)
    (hseed : p.input_data.seed_keywords ≠ [])
    (hgen : (alistGet p.config "content_generator").getD "claude" = "claude")
    (hrunk : ext.run "keyword_research" = .completed 0 o1 e1)
    (hk1 : ext.fileExists (pd ++ "/stage_01_keyword_research/keyword_clusters.csv") = true)
    (hk2 : ext.fileExists (pd ++ "/stage_01_keyword_research/cluster_summary.csv") = true)
    (hscript : ext.fileExists (sdir ++ "/" ++ "ArticleWriter_Claude.py") = true)
    (hruna : ext.run "article_writing" = .completed rc o2 e2)
    (hrc : rc ≠ 0) :
    (fun out =>
      (out.1.results.map (fun r => (r.1, r.2.success)),
       (alistGet out.1.results "article_writing").map StageResult.message,
       out.1.success,
       pipelineStages.map (fun s => (out.2.1.stageStatusOf s).status),
       out.2.1.stageError "article_writing"))
      (execute_full_pipeline ext sdir p none false now) =
    ([("keyword_research", true), ("content_briefs", true), ("article_writing", false)],
     some ("Script execution failed: " ++ e2),
     false,
     ["completed", "completed", "failed", "pending", "pending"],
     some (some ("Script execution failed: " ++ e2))) := by
  have hseedF : p.input_data.seed_keywords.isEmpty = false := by
    cases hs : p.input_data.seed_keywords with
    | nil => exact absurd hs hseed
    | cons a t => rfl
  have hrcF : (rc == 0) = false := by
    simpa using hrc
  have hmsg : ("Script execution failed: " ++ e2) ≠ "" := by
    intro h
    have h2 := congrArg String.data h
    rw [String.data_append] at h2
    exact absurd (List.append_eq_nil.mp h2).1 (by decide)
  simp [execute_full_pipeline, run_pipeline_stages, execute_stage,
    execute_keyword_research, execute_article_brief, ContentProject.update_stage_status,
    updTransform, ContentProject.stageStatusOf, ContentProject.stageError,
    ContentProject.get_project_path, get_script_path, stage_script_names,
    alistGet, alistHas, alistUpsert, pyTruthy, initialStatus, pipelineStages,
    hstat, hpath, hgen, hrunk, hk1, hk2, hscript, hruna, hseedF, hrcF, hmsg]

/-- Fixture for C3: the world where keyword research succeeds and produces
its files, and the article-writing script exits 1 with stderr `boom`. -/
def c3Ext : Ext :=
  { fileExists := fun f =>
      f == "projects/p3/stage_01_keyword_research/keyword_clusters.csv" ||
      f == "projects/p3/stage_01_keyword_research/cluster_summary.csv" ||
      f == "scripts/ArticleWriter_Claude.py"
    dirFiles := fun _ => []
    run := fun s =>
      if s == "keyword_research" then .completed 0 "" ""
      else if s == "article_writing" then .completed 1 "" "boom"
      else .completed 0 "" ""
    globClaude := fun _ => [] }

/-- Fixture for C3: a fresh project with seed keywords and a project
directory. -/
def c3Project : ContentProject :=
  { ContentProject.init "Demo" "" "id-3" 0 with
    project_path := some "projects/p3"
    input_data := { seed_keywords := ["ai marketing"], target_audience := ""
                    custom_instructions := "" } }

/-- C3 witness: the fail-fast run evaluated on the concrete fixture. -/
theorem pipeline_fail_fast_witness :
    (fun out =>
      (out.1.results.map (fun r => (r.1, r.2.success)),
       (alistGet out.1.results "article_writing").map StageResult.message,
       out.1.success,
       pipelineStages.map (fun s => (out.2.1.stageStatusOf s).status),
       out.2.1.stageError "article_writing"))
      (execute_full_pipeline c3Ext "scripts" c3Project none false 1) =
    ([("keyword_research", true), ("content_briefs", true), ("article_writing", false)],
     some ("Script execution failed: " ++ "boom"),
     false,
     ["completed", "completed", "failed", "pending", "pending"],
     some (some ("Script execution failed: " ++ "boom"))) :=
  pipeline_fail_fast c3Ext "scripts" "projects/p3" "" "boom" c3Project 1 1 "" ""
    rfl rfl (by decide) rfl rfl rfl rfl rfl rfl (by decide)

end ContentEngine
